import Mathlib

set_option linter.unusedVariables false

/-!
Verification development for the LegalMindAI backend (conversation-record
lifecycle management). The definitions below are a shallow embedding of the
Python sources:
  app/db/dynamodb.py        (save_or_update_chat, get_chat_titles, get_chat_by_id)
  app/api/chat_history.py   (save_chat, list_chat_titles)
  app/api/endpoints.py      (validate_chat_id, get_formatted_previous_convo, chat_basic)
  app/api/share.py          (share_chat)
External collaborators (DynamoDB, S3, the Groq generation gateway, and the
uuid standard library) are modelled by explicit state passing: the DynamoDB
chat table is an in-memory list of records keyed by the pair of user id and
chat id, S3 is an association list, the generation outcome is an input, and
the wall clock and the uuid4 generator are injected arguments. HTTP
exceptions become an explicit error value carried in Except.
-/

/-- One element of the `conversation` list stored in DynamoDB:
a dict with keys role, content, timestamp. -/
structure Msg where
  role : String
  content : String
  timestamp : String
deriving Repr, DecidableEq

/-- The full chat item written by `chat_table.put_item` in
save_or_update_chat: keys user_id, chat_id, title, conversation,
updated_at, created_at. -/
structure ChatRecord where
  user_id : String
  chat_id : String
  title : String
  conversation : List Msg
  updated_at : String
  created_at : String
deriving Repr, DecidableEq

/-- A fastapi HTTPException value: status_code and detail. -/
structure HTTPError where
  status : Nat
  detail : String
deriving Repr, DecidableEq

/-- The dict returned by save_or_update_chat on success. -/
structure SaveResult where
  chat_id : String
  title : String
  updated_at : String
deriving Repr, DecidableEq

/-- An observable DynamoDB access (get_item or put_item), recorded so that
claims about "no store access" can be stated. -/
inductive StoreOp where
  | read (user_id chat_id : String)
  | write (user_id chat_id : String)
deriving Repr, DecidableEq

/-- The DynamoDB chat table, modelled as a list of items; the key of an
item is the pair of its user_id and chat_id fields. -/
abbrev Store := List ChatRecord

/-- Model of `chat_table.get_item(Key=...)`: the item with the given key,
if present. -/
def Store.getItem (s : Store) (uid cid : String) : Option ChatRecord :=
  s.find? (fun r => r.user_id == uid && r.chat_id == cid)

/-- Model of `chat_table.put_item(Item=...)`: overwrite the item with the
same key, or insert. -/
def Store.putItem (s : Store) (item : ChatRecord) : Store :=
  item :: s.filter (fun r => !(r.user_id == item.user_id && r.chat_id == item.chat_id))

/-- Python string slicing `s[:n]` (first n code points). -/
def pySlice (s : String) (n : Nat) : String :=
  String.mk (s.data.take n)

/-- Title derivation from dynamodb.py line 47:
`question[:50] + ("..." if len(question) > 50 else "")`. -/
def chatTitle (question : String) : String :=
  pySlice question 50 ++ (if question.length > 50 then "..." else "")

/-- Python truthiness of the optional chat_id argument (`if not chat_id:`
takes the new-chat branch for both None and the empty string). -/
def strOptTruthy : Option String → Bool
  | none => false
  | some s => !(s == "")

/-- Embedding of dynamodb.py save_or_update_chat. The wall-clock reading
`datetime.now().isoformat()` is the injected argument current_time; the
`str(uuid.uuid4())` call is the injected argument fresh_uuid. The stored
item always carries all six keys, so the `.get` defaults on title,
conversation and created_at never fire for records written by this code.
In the existing-chat branch the 404 HTTPException is raised inside the
enclosing `try`, hence caught by `except Exception` and rewrapped as a 500.
The previous_convo parameter is accepted and ignored, as in the source. -/
def save_or_update_chat (store : Store) (user_id : String) (chat_id : Option String)
    (question : String) (previous_convo : List String) (answer : String)
    (current_time fresh_uuid : String) :
    (Except HTTPError (SaveResult × Store)) × List StoreOp :=
  if strOptTruthy chat_id = false then
    let cid := fresh_uuid
    let title := chatTitle question
    let conversation : List Msg :=
      [⟨"user", question, current_time⟩, ⟨"assistant", answer, current_time⟩]
    let item : ChatRecord := ⟨user_id, cid, title, conversation, current_time, current_time⟩
    (.ok (⟨cid, title, current_time⟩, store.putItem item), [.write user_id cid])
  else
    let cid := chat_id.getD ""
    match store.getItem user_id cid with
    | none =>
        (.error ⟨500, "Error retrieving chat: 404: Chat not found"⟩, [.read user_id cid])
    | some chat_data =>
        let title := chat_data.title
        let conversation := chat_data.conversation ++
          [⟨"user", question, current_time⟩, ⟨"assistant", answer, current_time⟩]
        let item : ChatRecord :=
          ⟨user_id, cid, title, conversation, current_time, chat_data.created_at⟩
        (.ok (⟨cid, title, current_time⟩, store.putItem item),
         [.read user_id cid, .write user_id cid])

/-- Embedding of dynamodb.py get_chat_by_id: a get_item, a 404 when the
item is absent; the `isinstance` guard in its except block re-raises the
404 unchanged, so the classified status survives this function. -/
def get_chat_by_id (store : Store) (user_id chat_id : String) :
    (Except HTTPError ChatRecord) × List StoreOp :=
  match store.getItem user_id chat_id with
  | none => (.error ⟨404, "Chat not found"⟩, [.read user_id chat_id])
  | some item => (.ok item, [.read user_id chat_id])

example : (save_or_update_chat [] "u" none "q" [] "a" "t" "id").2 = [.write "u" "id"] := by
  decide

example :
    (get_chat_by_id [] "u" "c").1 = .error ⟨404, "Chat not found"⟩ := rfl

/-- Worker for removeAll, structurally recursive on a fuel argument so
that it reduces inside the kernel; the fuel is always the length of the
list, which bounds the number of steps. -/
def removeAllAux (pat : List Char) : Nat → List Char → List Char
  | _, [] => []
  | 0, l => l
  | fuel + 1, c :: cs =>
    if pat ≠ [] ∧ (c :: cs).take pat.length = pat then
      removeAllAux pat fuel (cs.drop (pat.length - 1))
    else
      c :: removeAllAux pat fuel cs

/-- Model of Python `s.replace(pat, "")` on code-point lists: remove every
non-overlapping occurrence of pat, scanning left to right. Used with the
nonempty constant patterns of uuid.UUID only. -/
def removeAll (pat l : List Char) : List Char :=
  removeAllAux pat l.length l

/-- Model of Python `s.strip(chars)` for the two brace characters: drop
leading and trailing braces. -/
def stripBraces (cs : List Char) : List Char :=
  let isBrace := fun c => c == Char.ofNat 123 || c == Char.ofNat 125
  ((cs.dropWhile isBrace).reverse.dropWhile isBrace).reverse

/-- Hex digit cleanup performed by the CPython uuid.UUID string
constructor: `hex.replace("urn:", "").replace("uuid:", "").strip(braces)
.replace("-", "")`. -/
def uuidHex (s : String) : List Char :=
  (stripBraces (removeAll "uuid:".data (removeAll "urn:".data s.data))).filter
    (fun c => !(c == '-'))

/-- Canonical rendering `str(uuid_obj)` of a 32-hex-digit uuid: lowercase,
dashed 8-4-4-4-12. -/
def uuidCanon (hex : List Char) : String :=
  let h := hex.map Char.toLower
  String.mk (h.take 8) ++ "-" ++ String.mk ((h.drop 8).take 4) ++ "-" ++
    String.mk ((h.drop 12).take 4) ++ "-" ++ String.mk ((h.drop 16).take 4) ++ "-" ++
    String.mk (h.drop 20)

/-- Hexadecimal digit test for the code points accepted by `int(s, 16)`. -/
def isHexDigitChar (c : Char) : Bool :=
  c.isDigit || ('a' ≤ c && c ≤ 'f') || ('A' ≤ c && c ≤ 'F')

/-- Model of `uuid.UUID(s)` followed by `str(...)`: parse s as a uuid
string (32 hex digits after cleanup) and return the canonical form, or
none when a ValueError would be raised. Exotic int-literal forms with
underscores are not modelled; no claim touches them. -/
def pyUUID (s : String) : Option String :=
  let hex := uuidHex s
  if hex.length == 32 && hex.all isHexDigitChar then some (uuidCanon hex) else none

/-- Embedding of endpoints.py validate_chat_id: None passes through;
otherwise the format is checked with uuid.UUID before any store access
(400 on ValueError), then get_chat_by_id is consulted and its 404 is
mapped to a 400, other classified errors re-raised. -/
def validate_chat_id (store : Store) (chat_id : Option String) (user_id : String) :
    (Except HTTPError (Option String)) × List StoreOp :=
  match chat_id with
  | none => (.ok none, [])
  | some cid =>
    match pyUUID cid with
    | none => (.error ⟨400, "Invalid chat_id format. Must be a valid UUID."⟩, [])
    | some chat_id_str =>
      match get_chat_by_id store user_id chat_id_str with
      | (.ok _, ops) => (.ok (some chat_id_str), ops)
      | (.error e, ops) =>
        if e.status == 404 then (.error ⟨400, "Chat ID does not exist."⟩, ops)
        else (.error e, ops)

/-- Python list slice `lst[-n:]`: the suffix of the last n elements (the
whole list when it is shorter than n). -/
def takeLast (n : Nat) (l : List α) : List α :=
  l.drop (l.length - n)

/-- Context assembly of chat_history.py save_chat lines 60 to 64: keep the
last 10 stored turns, keep only user-authored ones, and render each as
`"User: " + content`. -/
def save_chat_context (conversation : List Msg) : List String :=
  ((takeLast 10 conversation).filter (fun m => m.role == "user")).map
    (fun m => "User: " ++ m.content)

/-- Context assembly of endpoints.py get_formatted_previous_convo lines 81
to 85: same filtering and rendering, with no suffix bound. -/
def formatted_previous_convo (conversation : List Msg) : List String :=
  (conversation.filter (fun m => m.role == "user")).map
    (fun m => "User: " ++ m.content)

/-- The previous-conversation block of chat_history.py save_chat lines 56
to 67: when a (truthy) chat_id is supplied, fetch the record (a store
read happens with no format validation), swallow a 404, and re-raise any
other classified error. -/
def fetch_previous_convo (store : Store) (user_id : String) (chat_id : Option String) :
    (Except HTTPError (List String)) × List StoreOp :=
  match chat_id with
  | none => (.ok [], [])
  | some cid =>
    if cid == "" then (.ok [], [])
    else
      match get_chat_by_id store user_id cid with
      | (.ok chat_data, ops) => (.ok (save_chat_context chat_data.conversation), ops)
      | (.error e, ops) =>
        if e.status == 404 then (.ok [], ops) else (.error e, ops)

/-- Embedding of chat_history.py save_chat: authentication guard, the
previous-conversation block, then save_or_update_chat; there is no
catch-all here, so the errors of save_or_update_chat propagate as they
are. On error the store is returned unchanged. -/
def save_chat (store : Store) (user_id : String) (chat_id : Option String)
    (question answer : String) (current_time fresh_uuid : String) :
    (Except HTTPError SaveResult) × Store × List StoreOp :=
  if user_id == "" then (.error ⟨401, "User not authenticated"⟩, store, [])
  else
    match fetch_previous_convo store user_id chat_id with
    | (.error e, ops) => (.error e, store, ops)
    | (.ok previous_convo, ops1) =>
      match save_or_update_chat store user_id chat_id question previous_convo answer
          current_time fresh_uuid with
      | (.ok (res, store2), ops2) => (.ok res, store2, ops1 ++ ops2)
      | (.error e, ops2) => (.error e, store, ops1 ++ ops2)

/-- Outcome of the generation gateway call in chat_basic, observed after
response decoding: answer carries the parsed answer text, empty models a
falsy `answer` (no choices or empty content), exn models an exception
raised by the SDK call or by json.loads. -/
inductive GenOutcome where
  | answer (answer_text : String)
  | empty
  | exn (msg : String)
deriving Repr, DecidableEq

/-- The catch-all `except Exception` of the chat endpoints: every
exception, an already-classified HTTPException included, is rewrapped as
`HTTPException(500, "Error: " + str(e))`, where str of an HTTPException
renders as `"{status}: {detail}"`. -/
def wrap500 (e : HTTPError) : HTTPError :=
  ⟨500, "Error: " ++ toString e.status ++ ": " ++ e.detail⟩

/-- The call of get_formatted_previous_convo from the chat endpoints
(endpoints.py lines 77 to 90): guarded by truthiness of chat_id and
user_id, 404 swallowed, other classified errors re-raised. -/
def endpoint_previous_convo (store : Store) (user_id : String) (chat_id : Option String) :
    (Except HTTPError (List String)) × List StoreOp :=
  match chat_id with
  | none => (.ok [], [])
  | some cid =>
    if cid == "" || user_id == "" then (.ok [], [])
    else
      match get_chat_by_id store user_id cid with
      | (.ok chat_data, ops) => (.ok (formatted_previous_convo chat_data.conversation), ops)
      | (.error e, ops) =>
        if e.status == 404 then (.ok [], ops) else (.error e, ops)

/-- Embedding of endpoints.py chat_basic: validate the chat id, assemble
the previous conversation, call the gateway, then persist on success.
Everything sits inside one `try` whose `except Exception` maps any raised
error through wrap500; a falsy answer raises a 500 that is itself
rewrapped. The store is mutated only by the save_or_update_chat call. -/
def chat_basic (store : Store) (gen : GenOutcome) (user_id : String) (chat_id : Option String)
    (question : String) (current_time fresh_uuid : String) :
    (Except HTTPError String) × Store × List StoreOp :=
  match validate_chat_id store chat_id user_id with
  | (.error e, ops) => (.error (wrap500 e), store, ops)
  | (.ok validated_chat_id, ops1) =>
    match endpoint_previous_convo store user_id validated_chat_id with
    | (.error e, ops2) => (.error (wrap500 e), store, ops1 ++ ops2)
    | (.ok previous_convo, ops2) =>
      match gen with
      | .exn msg => (.error ⟨500, "Error: " ++ msg⟩, store, ops1 ++ ops2)
      | .empty => (.error (wrap500 ⟨500, "No response, Try again"⟩), store, ops1 ++ ops2)
      | .answer answer_text =>
        if user_id == "" then (.ok answer_text, store, ops1 ++ ops2)
        else
          match save_or_update_chat store user_id validated_chat_id question previous_convo
              answer_text current_time fresh_uuid with
          | (.ok (_, store2), ops3) => (.ok answer_text, store2, ops1 ++ ops2 ++ ops3)
          | (.error e, ops3) => (.error (wrap500 e), store, ops1 ++ ops2 ++ ops3)

/-- The snapshot uploaded to S3 by share.py share_chat. -/
structure SharedChat where
  chat_id : String
  title : String
  conversation : List Msg
  shared_at : String
  shared_by : String
deriving Repr, DecidableEq

/-- The public S3 bucket, keyed by object key. -/
abbrev S3Store := List (String × SharedChat)

/-- Embedding of share.py share_chat: authentication guard outside the
try; inside, get_chat_by_id then put_object. The except block re-raises
HTTPExceptions unchanged (isinstance guard) and wraps anything else in a
500, so the 404 of a missing chat keeps its status here. -/
def share_chat (store : Store) (s3 : S3Store) (user_id chat_id shared_time : String) :
    (Except HTTPError String) × S3Store :=
  if user_id == "" then (.error ⟨401, "User not authenticated"⟩, s3)
  else
    match get_chat_by_id store user_id chat_id with
    | (.error e, _) => (.error e, s3)
    | (.ok chat_data, _) =>
      let shared : SharedChat :=
        ⟨chat_data.chat_id, chat_data.title, chat_data.conversation, shared_time, user_id⟩
      (.ok "Chat shared successfully", ("chats/" ++ chat_id ++ ".json", shared) :: s3)

/-- One row of the DynamoDB query in get_chat_titles (its
ProjectionExpression keeps chat_id, title, updated_at, created_at). -/
structure ChatTitleItem where
  chat_id : String
  title : String
  updated_at : String
  created_at : String
deriving Repr, DecidableEq

/-- Embedding of dynamodb.py get_chat_titles applied to the rows the
query returned for the user: Python `sorted(..., key=updated_at,
reverse=True)` is a stable descending sort by updated_at. -/
def get_chat_titles (items : List ChatTitleItem) : List ChatTitleItem :=
  items.mergeSort (fun a b => decide (b.updated_at ≤ a.updated_at))

/-- One entry of the response of chat_history.py list_chat_titles. -/
structure ChatSummary where
  chat_id : String
  title : String
  updated_at : String
  created_at : String
  chat_type : String
deriving Repr, DecidableEq

/-- Embedding of chat_history.py list_chat_titles: the sorted rows, each
given the chat_type fallback. The projection of the query never returns
chat_type, so the fallback to basic always fires. -/
def list_chat_titles (items : List ChatTitleItem) : List ChatSummary :=
  (get_chat_titles items).map
    (fun chat => ⟨chat.chat_id, chat.title, chat.updated_at, chat.created_at, "basic"⟩)

example : pyUUID "not-a-uuid" = none := by decide

example : pyUUID "123e4567-e89b-12d3-a456-426614174000" =
    some "123e4567-e89b-12d3-a456-426614174000" := by decide

example :
    (save_chat [] "u" (some "not-a-uuid") "q" "a" "t0" "f0").2.2 =
      [.read "u" "not-a-uuid", .read "u" "not-a-uuid"] := by decide

example :
    (chat_basic [] .empty "u" (some "not-a-uuid") "q" "t0" "f0").1 =
      .error ⟨500, "Error: 400: Invalid chat_id format. Must be a valid UUID."⟩ := rfl

/-- Client-error (4xx) status predicate, used to state which side of the
error taxonomy a surfaced status falls on. -/
def isClientError (status : Nat) : Bool :=
  400 ≤ status && status < 500

/-- Stores reachable from the empty table through completed
save_or_update_chat calls only. -/
inductive SaveReachable : Store → Prop where
  | empty : SaveReachable []
  | step (store : Store) (user_id : String) (chat_id : Option String) (question : String)
      (previous_convo : List String) (answer current_time fresh_uuid : String)
      (res : SaveResult) (store2 : Store) :
      SaveReachable store →
      (save_or_update_chat store user_id chat_id question previous_convo answer
        current_time fresh_uuid).1 = .ok (res, store2) →
      SaveReachable store2

/-! Helper lemmas about the store model. -/

theorem find?_filter_of_imp (l : List α) (p q : α → Bool)
    (h : ∀ x, p x = true → q x = true) :
    (l.filter q).find? p = l.find? p := by
  induction l with
  | nil => rfl
  | cons x xs ih =>
    cases hq : q x with
    | false =>
      have hp : p x = false := by
        cases hpx : p x
        · rfl
        · exact absurd (h x hpx) (by simp [hq])
      simp [List.filter_cons, hq, List.find?, hp, ih]
    | true =>
      cases hp : p x with
      | false => simp [List.filter_cons, hq, List.find?, hp, ih]
      | true => simp [List.filter_cons, hq, List.find?, hp]

theorem getItem_putItem_self (s : Store) (item : ChatRecord) :
    (s.putItem item).getItem item.user_id item.chat_id = some item := by
  simp [Store.putItem, Store.getItem, List.find?]

theorem getItem_putItem_ne (s : Store) (item : ChatRecord) (uid cid : String)
    (h : ¬(item.user_id = uid ∧ item.chat_id = cid)) :
    (s.putItem item).getItem uid cid = s.getItem uid cid := by
  have hhead : (item.user_id == uid && item.chat_id == cid) = false := by
    cases hb : (item.user_id == uid && item.chat_id == cid)
    · rfl
    · simp only [Bool.and_eq_true, beq_iff_eq] at hb
      exact absurd hb h
  simp only [Store.putItem, Store.getItem, List.find?, hhead]
  exact find?_filter_of_imp s _ _ (by
    intro x hx
    simp only [Bool.and_eq_true, beq_iff_eq] at hx
    simp only [Bool.not_eq_eq_eq_not, Bool.not_true, Bool.not_eq_true']
    cases hb : (x.user_id == item.user_id && x.chat_id == item.chat_id)
    · rfl
    · simp only [Bool.and_eq_true, beq_iff_eq] at hb
      exact absurd ⟨hb.1.symm.trans hx.1, hb.2.symm.trans hx.2⟩ h)

theorem mem_putItem (s : Store) (item r : ChatRecord) (h : r ∈ s.putItem item) :
    r = item ∨ r ∈ s := by
  simp only [Store.putItem, List.mem_cons, List.mem_filter] at h
  rcases h with h | h
  · exact Or.inl h
  · exact Or.inr h.1

/-- Shape of a successful save_or_update_chat: the new store is the old one
with a single put item whose key is the user id together with the returned
chat id, and whose conversation is either the fresh two-turn list or an
existing conversation with the two-turn pair appended. -/
theorem save_ok_shape (store : Store) (uid : String) (cid : Option String)
    (q : String) (pc : List String) (a t f : String) (res : SaveResult) (store2 : Store)
    (h : (save_or_update_chat store uid cid q pc a t f).1 = .ok (res, store2)) :
    ∃ item : ChatRecord, store2 = store.putItem item ∧ item.user_id = uid ∧
      item.chat_id = res.chat_id ∧
      (item.conversation = [⟨"user", q, t⟩, ⟨"assistant", a, t⟩] ∨
        ∃ r0, store.getItem uid (cid.getD "") = some r0 ∧
          item.conversation = r0.conversation ++ [⟨"user", q, t⟩, ⟨"assistant", a, t⟩]) := by
  by_cases htr : strOptTruthy cid = false
  · simp only [save_or_update_chat, if_pos htr] at h
    obtain ⟨h1, h2⟩ : (⟨f, chatTitle q, t⟩ : SaveResult) = res ∧
        store.putItem ⟨uid, f, chatTitle q,
          [⟨"user", q, t⟩, ⟨"assistant", a, t⟩], t, t⟩ = store2 := by
      simpa using h
    refine ⟨⟨uid, f, chatTitle q, [⟨"user", q, t⟩, ⟨"assistant", a, t⟩], t, t⟩,
      h2.symm, rfl, ?_, Or.inl rfl⟩
    rw [← h1]
  · simp only [save_or_update_chat, if_neg htr] at h
    cases hg : store.getItem uid (cid.getD "") with
    | none => rw [hg] at h; simp at h
    | some r0 =>
      rw [hg] at h
      obtain ⟨h1, h2⟩ : (⟨cid.getD "", r0.title, t⟩ : SaveResult) = res ∧
          store.putItem ⟨uid, cid.getD "", r0.title,
            r0.conversation ++ [⟨"user", q, t⟩, ⟨"assistant", a, t⟩],
            t, r0.created_at⟩ = store2 := by
        simpa using h
      refine ⟨⟨uid, cid.getD "", r0.title,
        r0.conversation ++ [⟨"user", q, t⟩, ⟨"assistant", a, t⟩], t, r0.created_at⟩,
        h2.symm, rfl, ?_, Or.inr ⟨r0, by simp [hg], rfl⟩⟩
      rw [← h1]

/-! Theorems for the claims. -/

/-- C1: for every stored conversation whose turn list is
[U1, A1, U2, A2, ..., U6, A6], the context assembled when continuing the
conversation through the /chat-history/save path is exactly the
user-authored turns among the last 10 stored turns, in their original
chronological order, each rendered as one line prefixed with the marker
`User: ` followed by the content of the turn; assistant turns contribute
nothing. -/
theorem save_context_of_six_round_conversation
    (u1 a1 u2 a2 u3 a3 u4 a4 u5 a5 u6 a6 : String)
    (t1 t2 t3 t4 t5 t6 t7 t8 t9 t10 t11 t12 : String) :
    save_chat_context
      [⟨"user", u1, t1⟩, ⟨"assistant", a1, t2⟩,
       ⟨"user", u2, t3⟩, ⟨"assistant", a2, t4⟩,
       ⟨"user", u3, t5⟩, ⟨"assistant", a3, t6⟩,
       ⟨"user", u4, t7⟩, ⟨"assistant", a4, t8⟩,
       ⟨"user", u5, t9⟩, ⟨"assistant", a5, t10⟩,
       ⟨"user", u6, t11⟩, ⟨"assistant", a6, t12⟩] =
      ["User: " ++ u2, "User: " ++ u3, "User: " ++ u4, "User: " ++ u5, "User: " ++ u6] :=
  rfl

/-- C2: saving a chat with no conversation identifier supplied creates a
record stored under the injected fresh uuid, with a title equal to the
first 50 characters of the question, an ellipsis marker appended exactly
when the question is longer than 50 characters, and for a question of at
most 50 characters the title is the question itself. -/
theorem new_chat_fresh_id_and_title (store : Store)
    (user_id question answer now fresh : String) (pc : List String) :
    ((save_or_update_chat store user_id none question pc answer now fresh).1 =
      .ok (⟨fresh, chatTitle question, now⟩,
        store.putItem ⟨user_id, fresh, chatTitle question,
          [⟨"user", question, now⟩, ⟨"assistant", answer, now⟩], now, now⟩) ∧
     (store.putItem ⟨user_id, fresh, chatTitle question,
          [⟨"user", question, now⟩, ⟨"assistant", answer, now⟩], now, now⟩).getItem
        user_id fresh =
      some ⟨user_id, fresh, chatTitle question,
        [⟨"user", question, now⟩, ⟨"assistant", answer, now⟩], now, now⟩) ∧
    chatTitle question = pySlice question 50 ++
      (if question.length > 50 then "..." else "") ∧
    (question.length ≤ 50 → chatTitle question = question) := by
  refine ⟨⟨rfl, getItem_putItem_self store _⟩, rfl, ?_⟩
  intro h
  have h2 : question.data.length ≤ 50 := h
  simp [chatTitle, pySlice, Nat.not_lt.mpr h, List.take_of_length_le h2]

/-- Witness for C2 at a concrete short question. -/
theorem new_chat_fresh_id_and_title_witness :
    chatTitle "hello" = "hello" :=
  (new_chat_fresh_id_and_title [] "u" "hello" "a" "t" "f" []).2.2 (by decide)

/-- C10: within a single save the timestamp is captured once and used
everywhere: on creation the stored record has created_at, updated_at and
both turn timestamps all equal to the injected current time, and on an
append the two appended turns and the refreshed updated_at carry that same
single timestamp while created_at is carried over. -/
theorem single_timestamp_per_save (store : Store)
    (user_id question answer now fresh : String) (pc : List String) :
    ((save_or_update_chat store user_id none question pc answer now fresh).1 =
      .ok (⟨fresh, chatTitle question, now⟩,
        store.putItem ⟨user_id, fresh, chatTitle question,
          [⟨"user", question, now⟩, ⟨"assistant", answer, now⟩], now, now⟩)) ∧
    (∀ (cid : String) (r : ChatRecord), cid ≠ "" →
      store.getItem user_id cid = some r →
      (save_or_update_chat store user_id (some cid) question pc answer now fresh).1 =
        .ok (⟨cid, r.title, now⟩,
          store.putItem ⟨user_id, cid, r.title,
            r.conversation ++ [⟨"user", question, now⟩, ⟨"assistant", answer, now⟩],
            now, r.created_at⟩)) := by
  refine ⟨rfl, ?_⟩
  intro cid r hcid hget
  have hcond : ¬(strOptTruthy (some cid) = false) := by
    simp [strOptTruthy, beq_eq_false_iff_ne.mpr hcid]
  simp only [save_or_update_chat, if_neg hcond, Option.getD_some, hget]

/-- Witness for C10 on a concrete one-record store. -/
theorem single_timestamp_per_save_witness :
    (save_or_update_chat
        [⟨"u", "c1", "ttl", [⟨"user", "q0", "s0"⟩, ⟨"assistant", "a0", "s0"⟩], "s0", "s0"⟩]
        "u" (some "c1") "q1" [] "a1" "s1" "f1").1 =
      .ok (⟨"c1", "ttl", "s1"⟩,
        Store.putItem
          [⟨"u", "c1", "ttl", [⟨"user", "q0", "s0"⟩, ⟨"assistant", "a0", "s0"⟩], "s0", "s0"⟩]
          ⟨"u", "c1", "ttl",
            [⟨"user", "q0", "s0"⟩, ⟨"assistant", "a0", "s0"⟩,
             ⟨"user", "q1", "s1"⟩, ⟨"assistant", "a1", "s1"⟩], "s1", "s0"⟩) :=
  (single_timestamp_per_save
      [⟨"u", "c1", "ttl", [⟨"user", "q0", "s0"⟩, ⟨"assistant", "a0", "s0"⟩], "s0", "s0"⟩]
      "u" "q1" "a1" "s1" "f1" []).2 "c1"
    ⟨"u", "c1", "ttl", [⟨"user", "q0", "s0"⟩, ⟨"assistant", "a0", "s0"⟩], "s0", "s0"⟩
    (by decide) (by decide)

/-- C3: a successful save that appends to an existing record keeps its
title and created_at unchanged and grows its conversation by exactly two
turns (a user turn then an assistant turn); and any other completed save,
one whose written key differs from this record's key, leaves this record
untouched. -/
theorem append_preserves_title_created_at (store : Store) (user_id cid : String)
    (r : ChatRecord) (question answer now fresh : String) (pc : List String)
    (hcid : cid ≠ "") (hget : store.getItem user_id cid = some r) :
    ((save_or_update_chat store user_id (some cid) question pc answer now fresh).1 =
      .ok (⟨cid, r.title, now⟩,
        store.putItem ⟨user_id, cid, r.title,
          r.conversation ++ [⟨"user", question, now⟩, ⟨"assistant", answer, now⟩],
          now, r.created_at⟩) ∧
     (r.conversation ++
        ([⟨"user", question, now⟩, ⟨"assistant", answer, now⟩] : List Msg)).length =
       r.conversation.length + 2 ∧
     (store.putItem ⟨user_id, cid, r.title,
          r.conversation ++ [⟨"user", question, now⟩, ⟨"assistant", answer, now⟩],
          now, r.created_at⟩).getItem user_id cid =
       some ⟨user_id, cid, r.title,
          r.conversation ++ [⟨"user", question, now⟩, ⟨"assistant", answer, now⟩],
          now, r.created_at⟩) ∧
    (∀ (uid2 : String) (cid2 : Option String) (q2 : String) (pc2 : List String)
       (a2 t2 f2 : String) (res : SaveResult) (store3 : Store),
      (save_or_update_chat store uid2 cid2 q2 pc2 a2 t2 f2).1 = .ok (res, store3) →
      ¬(uid2 = user_id ∧ res.chat_id = cid) →
      store3.getItem user_id cid = store.getItem user_id cid) := by
  constructor
  · have hcond : ¬(strOptTruthy (some cid) = false) := by
      simp [strOptTruthy, beq_eq_false_iff_ne.mpr hcid]
    refine ⟨?_, by simp, getItem_putItem_self store _⟩
    simp only [save_or_update_chat, if_neg hcond, Option.getD_some, hget]
  · intro uid2 cid2 q2 pc2 a2 t2 f2 res store3 hsave hne
    obtain ⟨item, hstore3, hui, hci, -⟩ :=
      save_ok_shape store uid2 cid2 q2 pc2 a2 t2 f2 res store3 hsave
    rw [hstore3]
    exact getItem_putItem_ne store item user_id cid (by
      intro hk
      exact hne ⟨hui ▸ hk.1, hci ▸ hk.2⟩)

/-- Witness for C3 on a concrete one-record store, including the frame
part applied to a save that writes a different chat. -/
theorem append_preserves_title_created_at_witness :
    ((save_or_update_chat
        [⟨"u", "c1", "ttl", [⟨"user", "q0", "s0"⟩, ⟨"assistant", "a0", "s0"⟩], "s0", "s0"⟩]
        "u" (some "c1") "q1" [] "a1" "s1" "f1").1 =
      .ok (⟨"c1", "ttl", "s1"⟩,
        Store.putItem
          [⟨"u", "c1", "ttl", [⟨"user", "q0", "s0"⟩, ⟨"assistant", "a0", "s0"⟩], "s0", "s0"⟩]
          ⟨"u", "c1", "ttl",
            [⟨"user", "q0", "s0"⟩, ⟨"assistant", "a0", "s0"⟩,
             ⟨"user", "q1", "s1"⟩, ⟨"assistant", "a1", "s1"⟩], "s1", "s0"⟩)) ∧
    (Store.getItem
        (Store.putItem
          [⟨"u", "c1", "ttl", [⟨"user", "q0", "s0"⟩, ⟨"assistant", "a0", "s0"⟩], "s0", "s0"⟩]
          ⟨"u", "other", chatTitle "q2",
            [⟨"user", "q2", "s2"⟩, ⟨"assistant", "a2", "s2"⟩], "s2", "s2"⟩)
        "u" "c1" =
      Store.getItem
        [⟨"u", "c1", "ttl", [⟨"user", "q0", "s0"⟩, ⟨"assistant", "a0", "s0"⟩], "s0", "s0"⟩]
        "u" "c1") := by
  have h := append_preserves_title_created_at
    [⟨"u", "c1", "ttl", [⟨"user", "q0", "s0"⟩, ⟨"assistant", "a0", "s0"⟩], "s0", "s0"⟩]
    "u" "c1"
    ⟨"u", "c1", "ttl", [⟨"user", "q0", "s0"⟩, ⟨"assistant", "a0", "s0"⟩], "s0", "s0"⟩
    "q1" "a1" "s1" "f1" [] (by decide) (by decide)
  refine ⟨h.1.1, ?_⟩
  exact h.2 "u" none "q2" [] "a2" "s2" "other"
    (⟨"other", chatTitle "q2", "s2"⟩ : SaveResult)
    (Store.putItem
      [⟨"u", "c1", "ttl", [⟨"user", "q0", "s0"⟩, ⟨"assistant", "a0", "s0"⟩], "s0", "s0"⟩]
      ⟨"u", "other", chatTitle "q2",
        [⟨"user", "q2", "s2"⟩, ⟨"assistant", "a2", "s2"⟩], "s2", "s2"⟩)
    rfl (by decide)

/-- C4: a store reachable only through completed saves holds only records
with an even number of turns: a new record starts with one user and one
assistant turn, and every append adds such a pair; so the turn list
length of every reachable record is even. -/
theorem save_reachable_conversation_even (store : Store) (h : SaveReachable store) :
    ∀ r ∈ store, r.conversation.length % 2 = 0 := by
  induction h with
  | empty => intro r hr; cases hr
  | step s uid cid q pc a t f res s2 hreach hsave ih =>
    intro r hr
    obtain ⟨item, hstore2, -, -, hconv⟩ :=
      save_ok_shape s uid cid q pc a t f res s2 hsave
    rw [hstore2] at hr
    rcases mem_putItem s item r hr with hri | hrs
    · rcases hconv with hnew | ⟨r0, hg0, happ⟩
      · rw [hri, hnew]; simp
      · have h0 : r0 ∈ s := List.mem_of_find?_eq_some hg0
        have he := ih r0 h0
        rw [hri, happ]
        simp [List.length_append]
        omega
    · exact ih r hrs

/-- Witness for C4: the store obtained by one save from the empty table,
whose single record has two turns. -/
theorem save_reachable_conversation_even_witness :
    (ChatRecord.mk "u" "id0" (chatTitle "q")
      [⟨"user", "q", "t"⟩, ⟨"assistant", "a", "t"⟩] "t" "t").conversation.length % 2 = 0 :=
  save_reachable_conversation_even _
    (SaveReachable.step [] "u" none "q" [] "a" "t" "id0"
      ⟨"id0", chatTitle "q", "t"⟩
      (Store.putItem [] ⟨"u", "id0", chatTitle "q",
        [⟨"user", "q", "t"⟩, ⟨"assistant", "a", "t"⟩], "t", "t"⟩)
      SaveReachable.empty rfl)
    ⟨"u", "id0", chatTitle "q", [⟨"user", "q", "t"⟩, ⟨"assistant", "a", "t"⟩], "t", "t"⟩
    (by simp [Store.putItem])

/-- C8: when generation fails on the chat-basic path, either because the
gateway produced no usable answer or because the call raised, the request
returns an error and the store is left exactly as it was: no turn pair,
no title change, no timestamp change, no orphaned user-only turn. -/
theorem gen_failure_returns_error_no_mutation (store : Store) (user_id : String)
    (chat_id : Option String) (question now fresh msg : String) :
    ((chat_basic store .empty user_id chat_id question now fresh).2.1 = store ∧
     ∃ e, (chat_basic store .empty user_id chat_id question now fresh).1 = .error e) ∧
    ((chat_basic store (.exn msg) user_id chat_id question now fresh).2.1 = store ∧
     ∃ e, (chat_basic store (.exn msg) user_id chat_id question now fresh).1 = .error e) := by
  constructor
  · unfold chat_basic
    split
    · exact ⟨rfl, _, rfl⟩
    · split
      · exact ⟨rfl, _, rfl⟩
      · exact ⟨rfl, _, rfl⟩
  · unfold chat_basic
    split
    · exact ⟨rfl, _, rfl⟩
    · split
      · exact ⟨rfl, _, rfl⟩
      · exact ⟨rfl, _, rfl⟩

/-- C9: listing chat summaries returns the rows ordered by updated_at in
descending order: every entry's updated_at is at least the next one's.
The sort is a pure function of the input rows, so ties are broken
deterministically; the output is a permutation of the sorted rows. -/
theorem chat_titles_sorted_descending (items : List ChatTitleItem) :
    List.Chain' (fun a b => b.updated_at ≤ a.updated_at) (list_chat_titles items) ∧
    (get_chat_titles items).Perm items := by
  have hpair : List.Pairwise
      (fun a b : ChatTitleItem => decide (b.updated_at ≤ a.updated_at) = true)
      (items.mergeSort (fun a b => decide (b.updated_at ≤ a.updated_at))) := by
    refine @List.sorted_mergeSort ChatTitleItem
      (fun a b => decide (b.updated_at ≤ a.updated_at)) ?_ ?_ items
    · intro a b c hab hbc
      simp only [decide_eq_true_eq] at hab hbc ⊢
      exact le_trans hbc hab
    · intro a b
      simp only [Bool.or_eq_true, decide_eq_true_eq]
      exact le_total b.updated_at a.updated_at
  constructor
  · refine List.Pairwise.chain' ?_
    refine List.Pairwise.map _ ?_ hpair
    intro a b hab
    simpa using hab
  · exact List.mergeSort_perm items _

/-- C5 counterexample: on the /chat-history/save path a malformed
identifier does not stop before the store; the handler issues two store
reads (one in its previous-conversation block, one inside
save_or_update_chat), so the access trace is not empty as the claim
requires for every chat request path. -/
theorem malformed_id_save_path_reads_store :
    (save_chat [] "u" (some "not-a-uuid") "q" "a" "t0" "f0").2.2 =
      [StoreOp.read "u" "not-a-uuid", StoreOp.read "u" "not-a-uuid"] ∧
    ¬((save_chat [] "u" (some "not-a-uuid") "q" "a" "t0" "f0").2.2 = ([] : List StoreOp)) := by
  decide

/-- C5 amended: on the chat endpoints that use validate_chat_id, an
identifier that does not parse as a UUID fails with a 400 BadRequest
before any store access: the validator returns the 400 with an empty
access trace and chat-basic performs no store operation and no mutation.
The /chat-history/save path, by contrast, performs no format validation
and issues a store read even for a malformed identifier. -/
theorem malformed_id_validation_paths (store : Store) (g : GenOutcome)
    (user_id cid question answer now fresh : String)
    (hbad : pyUUID cid = none) (huid : user_id ≠ "") (hcid : cid ≠ "") :
    validate_chat_id store (some cid) user_id =
      (.error ⟨400, "Invalid chat_id format. Must be a valid UUID."⟩, []) ∧
    (chat_basic store g user_id (some cid) question now fresh).2.2 = [] ∧
    (chat_basic store g user_id (some cid) question now fresh).2.1 = store ∧
    StoreOp.read user_id cid ∈
      (save_chat store user_id (some cid) question answer now fresh).2.2 := by
  have h1 : validate_chat_id store (some cid) user_id =
      (.error ⟨400, "Invalid chat_id format. Must be a valid UUID."⟩, []) := by
    simp [validate_chat_id, hbad]
  have hu : (user_id == "") = false := beq_eq_false_iff_ne.mpr huid
  have hc : (cid == "") = false := beq_eq_false_iff_ne.mpr hcid
  refine ⟨h1, ?_, ?_, ?_⟩
  · simp [chat_basic, h1]
  · simp [chat_basic, h1]
  · rcases hg : store.getItem user_id cid with _ | r <;>
      simp [save_chat, fetch_previous_convo, get_chat_by_id, hg, hu, hc,
        save_or_update_chat, strOptTruthy]

/-- Witness for the amended C5 at the concrete malformed identifier. -/
theorem malformed_id_validation_paths_witness :
    validate_chat_id [] (some "not-a-uuid") "u" =
      (.error ⟨400, "Invalid chat_id format. Must be a valid UUID."⟩, []) ∧
    (chat_basic [] .empty "u" (some "not-a-uuid") "q" "t0" "f0").2.2 = [] ∧
    (chat_basic [] .empty "u" (some "not-a-uuid") "q" "t0" "f0").2.1 = [] ∧
    StoreOp.read "u" "not-a-uuid" ∈
      (save_chat [] "u" (some "not-a-uuid") "q" "a" "t0" "f0").2.2 :=
  malformed_id_validation_paths [] .empty "u" "not-a-uuid" "q" "a" "t0" "f0"
    (by decide) (by decide) (by decide)

/-- C6 counterexample: a well-formed identifier unknown to the owner, sent
through the /chat-history/save path, surfaces as a 500 server error (the
404 raised inside save_or_update_chat is rewrapped by its own catch-all),
not as the client-error condition the claim states. -/
theorem unknown_id_surfaces_server_error :
    pyUUID "123e4567-e89b-12d3-a456-426614174000" =
      some "123e4567-e89b-12d3-a456-426614174000" ∧
    (save_chat [] "u" (some "123e4567-e89b-12d3-a456-426614174000") "q" "a" "t0" "f0").1 =
      .error ⟨500, "Error retrieving chat: 404: Chat not found"⟩ ∧
    isClientError 500 = false :=
  ⟨by decide, rfl, by decide⟩

/-- C6 amended: for a well-formed identifier that does not exist for the
requesting owner, the save and continue operations fail, the underlying
404 or 400 rewrapped into a 500 server error by the catch-all handlers,
and no conversation record is created: the store is returned unchanged on
both the /chat-history/save path and the chat-basic path, so an unknown
identifier is never silently converted into a fresh conversation. -/
theorem unknown_id_no_record_created (store : Store) (g : GenOutcome)
    (user_id cid canon question answer now fresh : String)
    (huid : user_id ≠ "") (hcid : cid ≠ "")
    (hwf : pyUUID cid = some canon)
    (hraw : store.getItem user_id cid = none)
    (hcanon : store.getItem user_id canon = none) :
    ((save_chat store user_id (some cid) question answer now fresh).1 =
        .error ⟨500, "Error retrieving chat: 404: Chat not found"⟩ ∧
      (save_chat store user_id (some cid) question answer now fresh).2.1 = store) ∧
    ((chat_basic store g user_id (some cid) question now fresh).1 =
        .error ⟨500, "Error: 400: Chat ID does not exist."⟩ ∧
      (chat_basic store g user_id (some cid) question now fresh).2.1 = store) := by
  have hu : (user_id == "") = false := beq_eq_false_iff_ne.mpr huid
  have hc : (cid == "") = false := beq_eq_false_iff_ne.mpr hcid
  constructor
  · constructor <;>
      simp [save_chat, fetch_previous_convo, get_chat_by_id, hraw, hu, hc,
        save_or_update_chat, strOptTruthy]
  · have hv : validate_chat_id store (some cid) user_id =
        (.error ⟨400, "Chat ID does not exist."⟩, [.read user_id canon]) := by
      simp [validate_chat_id, hwf, get_chat_by_id, hcanon]
    constructor
    · simp only [chat_basic, hv]
      rfl
    · simp [chat_basic, hv]

/-- Witness for the amended C6 at a concrete canonical identifier and the
empty store. -/
theorem unknown_id_no_record_created_witness :
    ((save_chat [] "u" (some "123e4567-e89b-12d3-a456-426614174999") "q" "a" "t0" "f0").1 =
        .error ⟨500, "Error retrieving chat: 404: Chat not found"⟩ ∧
      (save_chat [] "u" (some "123e4567-e89b-12d3-a456-426614174999") "q" "a" "t0" "f0").2.1 =
        []) ∧
    ((chat_basic [] .empty "u" (some "123e4567-e89b-12d3-a456-426614174999") "q" "t0" "f0").1 =
        .error ⟨500, "Error: 400: Chat ID does not exist."⟩ ∧
      (chat_basic [] .empty "u" (some "123e4567-e89b-12d3-a456-426614174999") "q" "t0"
          "f0").2.1 = []) :=
  unknown_id_no_record_created [] .empty "u" "123e4567-e89b-12d3-a456-426614174999"
    "123e4567-e89b-12d3-a456-426614174999" "q" "a" "t0" "f0"
    (by decide) (by decide) (by decide) rfl rfl

/-- C7 counterexample: on the chat-basic endpoint the 400 BadRequest
raised for a malformed identifier does not surface with its client-error
status: the catch-all wraps it and the client receives a 500. -/
theorem classified_error_wrapped_to_500 :
    (chat_basic [] .empty "u" (some "not-a-uuid") "q" "t0" "f0").1 =
      .error ⟨500, "Error: 400: Invalid chat_id format. Must be a valid UUID."⟩ ∧
    isClientError 500 = false :=
  ⟨rfl, by decide⟩

/-- C7 amended: the boundaries guarded by an isinstance re-raise,
get_chat_by_id and share_chat, preserve the status of already-classified
errors (the 404 of a missing chat survives them unchanged), and an
unexpected exception on chat-basic is mapped to a generic 500; but the
chat endpoints catch every exception, HTTPExceptions included, and wrap
it into a generic 500, so the 400 for a malformed identifier surfaces to
the client as a 500. -/
theorem error_wrapping_at_boundaries (store : Store) (s3 : S3Store) (g : GenOutcome)
    (user_id cid cid2 question now fresh shared_time msg : String)
    (huid : user_id ≠ "")
    (hmiss : store.getItem user_id cid = none)
    (hbad : pyUUID cid2 = none) :
    (get_chat_by_id store user_id cid).1 = .error ⟨404, "Chat not found"⟩ ∧
    (share_chat store s3 user_id cid shared_time).1 = .error ⟨404, "Chat not found"⟩ ∧
    (chat_basic store g user_id (some cid2) question now fresh).1 =
      .error ⟨500, "Error: 400: Invalid chat_id format. Must be a valid UUID."⟩ ∧
    (chat_basic store (.exn msg) user_id none question now fresh).1 =
      .error ⟨500, "Error: " ++ msg⟩ := by
  have hu : (user_id == "") = false := beq_eq_false_iff_ne.mpr huid
  have h1 : validate_chat_id store (some cid2) user_id =
      (.error ⟨400, "Invalid chat_id format. Must be a valid UUID."⟩, []) := by
    simp [validate_chat_id, hbad]
  refine ⟨?_, ?_, ?_, rfl⟩
  · simp [get_chat_by_id, hmiss]
  · simp [share_chat, get_chat_by_id, hmiss, hu]
  · simp only [chat_basic, h1]
    rfl

/-- Witness for the amended C7 at concrete inputs. -/
theorem error_wrapping_at_boundaries_witness :
    (get_chat_by_id [] "u" "c9").1 = .error ⟨404, "Chat not found"⟩ ∧
    (share_chat [] [] "u" "c9" "t9").1 = .error ⟨404, "Chat not found"⟩ ∧
    (chat_basic [] .empty "u" (some "bad-id") "q" "t0" "f0").1 =
      .error ⟨500, "Error: 400: Invalid chat_id format. Must be a valid UUID."⟩ ∧
    (chat_basic [] (.exn "boom") "u" none "q" "t0" "f0").1 =
      .error ⟨500, "Error: " ++ "boom"⟩ :=
  error_wrapping_at_boundaries [] [] .empty "u" "c9" "bad-id" "q" "t0" "f0" "t9" "boom"
    (by decide) rfl (by decide)
